import Mathlib

/-!
Shallow embedding of `Mesh_3/include/CGAL/Mesh_3/Locking_data_structures.h`:
the spatial grid lock manager (`Simple_grid_locking_ds` and its two variant
strategies), viewed from a single calling thread.  Doubles are modelled as
exact rationals; `static_cast<int>` on a double is truncation toward zero.
-/

/-- C++ `static_cast<int>` applied to an exactly represented rational:
truncation toward zero. -/
def ratTrunc (q : ℚ) : Int :=
  q.num.tdiv q.den

/-- The box `CGAL::Bbox_3`, restricted to the six bounds the lock manager reads. -/
structure Bbox3 where
  xmin : ℚ
  ymin : ℚ
  zmin : ℚ
  xmax : ℚ
  ymax : ℚ
  zmax : ℚ
deriving DecidableEq

/-- A 3-D point offering `.x()`, `.y()`, `.z()` (the `P3` template parameter). -/
structure Point3 where
  x : ℚ
  y : ℚ
  z : ℚ
deriving DecidableEq

/-- The immutable per-manager parameters set by the constructor of
`Simple_grid_locking_ds` (and identically by the two variant classes):
`m_num_grid_cells_per_axis`, the three mins and the three resolutions. -/
structure GridParams where
  numGridCellsPerAxis : Int
  xmin : ℚ
  ymin : ℚ
  zmin : ℚ
  resolutionX : ℚ
  resolutionY : ℚ
  resolutionZ : ℚ
deriving DecidableEq

/-- The constructor body (lines 41-71): stores `num_grid_cells_per_axis`, the
mins, and `resolution = n / (max - min)` per axis.  There is no validation
branch in the source: every input, including `num_grid_cells_per_axis <= 0`
or a degenerate bounding box, produces a manager.  (In C++ a degenerate box
gives an infinite `double` resolution and `cells_per_axis <= 0` makes
`new bool[n^3]` undefined; in this rational model division by zero yields 0
and the grid below is empty — either way no construction error is raised.) -/
def mkGridParams (bbox : Bbox3) (numGridCellsPerAxis : Int) : GridParams :=
  { numGridCellsPerAxis := numGridCellsPerAxis
    xmin := bbox.xmin
    ymin := bbox.ymin
    zmin := bbox.zmin
    resolutionX := (numGridCellsPerAxis : ℚ) / (bbox.xmax - bbox.xmin)
    resolutionY := (numGridCellsPerAxis : ℚ) / (bbox.ymax - bbox.ymin)
    resolutionZ := (numGridCellsPerAxis : ℚ) / (bbox.zmax - bbox.zmin) }

/-- The count `num_cells = n*n*n` as an array length (negative products clamp to an
empty allocation in this model; in C++ they are undefined). -/
def numCellsOf (n : Int) : Nat :=
  (n * n * n).toNat

/-- The mutable state of `Simple_grid_locking_ds` as seen by one thread:
the shared grid of atomic booleans `m_grid`, this thread's local bitmap
`m_tls_grids.local()`, and this thread's list `m_tls_locked_cells.local()`.
Cells held by other threads appear as `grid` entries that are `true` while
the corresponding `tlsGrid` entry is `false`. -/
structure GridLockState where
  grid : List Bool
  tlsGrid : List Bool
  tlsLockedCells : List Nat
deriving DecidableEq

/-- The state of a freshly constructed manager for a fresh thread: shared
grid all free, thread-local bitmap all clear, locked-cell list empty
(lines 56-61 and the thread-local initializer lambda, lines 44-54). -/
def initGridLockState (numCells : Nat) : GridLockState :=
  { grid := List.replicate numCells false
    tlsGrid := List.replicate numCells false
    tlsLockedCells := [] }

/-- Source `Simple_grid_locking_ds::try_lock(int cell_index)` (lines 86-106):
if the thread-local bitmap already has the bit, succeed without touching
anything; otherwise compare-and-swap the shared slot from `false` to `true`
and on success record the cell in the bitmap and the list. -/
def tryLockCell (s : GridLockState) (cellIndex : Nat) : Bool × GridLockState :=
  if s.tlsGrid.getD cellIndex false then
    (true, s)
  else
    if s.grid.getD cellIndex false = false then
      (true,
        { grid := s.grid.set cellIndex true
          tlsGrid := s.tlsGrid.set cellIndex true
          tlsLockedCells := s.tlsLockedCells ++ [cellIndex] })
    else
      (false, s)

/-- Source `Simple_grid_locking_ds::unlock(int cell_index)` (lines 198-203):
unconditionally clear the shared slot and the thread-local bit.  No check
that the caller holds the cell is made. -/
def unlockCell (s : GridLockState) (cellIndex : Nat) : GridLockState :=
  { grid := s.grid.set cellIndex false
    tlsGrid := s.tlsGrid.set cellIndex false
    tlsLockedCells := s.tlsLockedCells }

/-- Source `Simple_grid_locking_ds::unlock_all_tls_locked_cells` (lines 205-218):
walk the thread-local list, unlock each recorded cell still marked in the
bitmap, then clear the list. -/
def unlockAllTlsLockedCells (s : GridLockState) : GridLockState :=
  let s' := s.tlsLockedCells.foldl
    (fun t c => if t.tlsGrid.getD c false then unlockCell t c else t) s
  { s' with tlsLockedCells := [] }

/-- Source `Simple_grid_locking_ds::check_if_all_tls_cells_are_unlocked`
(lines 220-228): scan the whole thread-local bitmap. -/
def checkIfAllTlsCellsAreUnlocked (numCells : Nat) (s : GridLockState) : Bool :=
  (List.range numCells).all fun i => ! s.tlsGrid.getD i false

/-- One axis of the grid-index computation (lines 114-119):
`static_cast<int>((coord - min) * resolution)` followed by
`std::max(0, std::min(index, N - 1))`. -/
def cellCoord (n : Int) (minv res coord : ℚ) : Int :=
  max 0 (min (ratTrunc ((coord - minv) * res)) (n - 1))

/-- The clamped x grid coordinate of a point. -/
def cellCoordX (pa : GridParams) (p : Point3) : Int :=
  cellCoord pa.numGridCellsPerAxis pa.xmin pa.resolutionX p.x

/-- The clamped y grid coordinate of a point. -/
def cellCoordY (pa : GridParams) (p : Point3) : Int :=
  cellCoord pa.numGridCellsPerAxis pa.ymin pa.resolutionY p.y

/-- The clamped z grid coordinate of a point. -/
def cellCoordZ (pa : GridParams) (p : Point3) : Int :=
  cellCoord pa.numGridCellsPerAxis pa.zmin pa.resolutionZ p.z

/-- The combination `index = index_z*N*N + index_y*N + index_x` (lines 121-124). -/
def cellIndexOf (pa : GridParams) (p : Point3) : Int :=
  cellCoordZ pa p * pa.numGridCellsPerAxis * pa.numGridCellsPerAxis
    + cellCoordY pa p * pa.numGridCellsPerAxis
    + cellCoordX pa p

/-- The loop bounds of one axis of the region traversal (lines 139-149):
`std::max(0, c - r)` up to `std::min(N - 1, c + r)` inclusive, in
increasing order. -/
def axisRange (n c r : Int) : List Int :=
  let lo := max 0 (c - r)
  let hi := min (n - 1) (c + r)
  (List.range (hi - lo + 1).toNat).map fun t => lo + (t : Int)

/-- The cells visited by the triple loop of the region overload, in source
order: `i` (x) outermost, `j` (y), then `k` (z) innermost, each mapped to
`k*N*N + j*N + i` (lines 139-154). -/
def regionIndices (n ix iy iz r : Int) : List Int :=
  (axisRange n ix r).flatMap fun i =>
    (axisRange n iy r).flatMap fun j =>
      (axisRange n iz r).map fun k => k * n * n + j * n + i

/-- The acquisition loop of the region overload (lines 151-170): try each
cell in order; a success (including a reentrant one) is appended to
`locked_cells_tmp`; on the first failure every cell recorded in
`locked_cells_tmp` is unlocked, in order, and the call fails. -/
def tryLockCellList : GridLockState → List Nat → List Nat → Bool × GridLockState
  | s, [], _ => (true, s)
  | s, c :: rest, tmp =>
    let r := tryLockCell s c
    if r.1 then
      tryLockCellList r.2 rest (tmp ++ [c])
    else
      (false, tmp.foldl unlockCell r.2)

/-- The region overload after the grid coordinates have been computed:
`lock_radius == 0` degenerates to a single-cell `try_lock` on the center
index; otherwise the cube is traversed with rollback (lines 129-176).
Both branches return the center index as the second component. -/
def tryLockRegionAt (n : Int) (s : GridLockState) (ix iy iz r : Int) :
    (Bool × Int) × GridLockState :=
  let index := iz * n * n + iy * n + ix
  if r = 0 then
    let res := tryLockCell s index.toNat
    ((res.1, index), res.2)
  else
    let res := tryLockCellList s ((regionIndices n ix iy iz r).map Int.toNat) []
    ((res.1, index), res.2)

/-- Source `Simple_grid_locking_ds::try_lock(const P3 &point, int lock_radius)`
(lines 111-177): compute the clamped grid coordinates of the point, then
run the region acquisition. -/
def tryLockRegion (pa : GridParams) (s : GridLockState) (p : Point3) (r : Int) :
    (Bool × Int) × GridLockState :=
  tryLockRegionAt pa.numGridCellsPerAxis s
    (cellCoordX pa p) (cellCoordY pa p) (cellCoordZ pa p) r

/-!
The owner-id strategy, `Simple_grid_locking_ds_with_thread_ids`
(lines 248-477).  The shared grid holds an atomic `unsigned int` per cell:
0 means free, otherwise the unique id (> 0) of the holding thread.
-/

/-- The state of `Simple_grid_locking_ds_with_thread_ids` as seen by one
thread: the slot values of `m_grid` (0 = free, otherwise the holder's id),
this thread's bitmap and locked-cell list. -/
structure OwnerGridLockState where
  grid : List Nat
  tlsGrid : List Bool
  tlsLockedCells : List Nat
deriving DecidableEq

/-- Fresh manager, fresh thread (lines 275-280 and the thread-local
initializers). -/
def initOwnerGridLockState (numCells : Nat) : OwnerGridLockState :=
  { grid := List.replicate numCells 0
    tlsGrid := List.replicate numCells false
    tlsLockedCells := [] }

/-- Outcome of the owner-id acquisition loop, observed against a slot value
that no other thread changes while the loop runs: the loop either acquires
the cell, exits with `false`, or keeps yielding and retrying forever. -/
inductive OwnerAttempt where
  | success : OwnerAttempt
  | failure : OwnerAttempt
  | spins : OwnerAttempt
deriving DecidableEq

/-- The do-while loop of
`Simple_grid_locking_ds_with_thread_ids::try_lock(int)` (lines 316-332)
against a fixed slot value `slot`: the CAS returns `slot` as `old_value`;
`old_value == 0` acquires and stops; otherwise the loop yields and repeats
while `old_value < this_thread_id`, so a nonzero slot below the caller's id
spins and a slot at or above the caller's id makes the loop exit with
`ret == false` after one iteration. -/
def ownerAttempt (slot tid : Nat) : OwnerAttempt :=
  if slot = 0 then .success
  else if slot < tid then .spins
  else .failure

/-- Source `Simple_grid_locking_ds_with_thread_ids::try_lock(int)` (lines 305-335):
reentrant fast path on the thread-local bitmap, then the CAS loop; on
acquisition the bitmap and the locked-cell list are updated. -/
def tryLockCellOwner (tid : Nat) (s : OwnerGridLockState) (cellIndex : Nat) :
    OwnerAttempt × OwnerGridLockState :=
  if s.tlsGrid.getD cellIndex false then
    (.success, s)
  else
    match ownerAttempt (s.grid.getD cellIndex 0) tid with
    | .success =>
      (.success,
        { grid := s.grid.set cellIndex tid
          tlsGrid := s.tlsGrid.set cellIndex true
          tlsLockedCells := s.tlsLockedCells ++ [cellIndex] })
    | .failure => (.failure, s)
    | .spins => (.spins, s)

/-- Source `Simple_grid_locking_ds_with_thread_ids::unlock(int)` (lines 427-432):
unconditionally zero the slot and clear the thread-local bit. -/
def unlockCellOwner (s : OwnerGridLockState) (cellIndex : Nat) : OwnerGridLockState :=
  { grid := s.grid.set cellIndex 0
    tlsGrid := s.tlsGrid.set cellIndex false
    tlsLockedCells := s.tlsLockedCells }

/-- Function `unlock_all_tls_locked_cells` of the owner-id strategy (lines 434-447). -/
def unlockAllTlsLockedCellsOwner (s : OwnerGridLockState) : OwnerGridLockState :=
  let s' := s.tlsLockedCells.foldl
    (fun t c => if t.tlsGrid.getD c false then unlockCellOwner t c else t) s
  { s' with tlsLockedCells := [] }

/-- Function `check_if_all_tls_cells_are_unlocked` of the owner-id strategy
(lines 449-457). -/
def checkIfAllTlsCellsAreUnlockedOwner (numCells : Nat) (s : OwnerGridLockState) : Bool :=
  (List.range numCells).all fun i => ! s.tlsGrid.getD i false

/-!
The mutex strategy, `Simple_grid_locking_ds_with_mutex` (lines 480-687).
Each cell holds a `tbb::recursive_mutex`.  Restricted to the single
modelled thread, a recursive mutex is its acquisition count: `try_lock`
always succeeds and increments the count, `unlock` decrements it.
Calling `unlock` on a mutex the thread does not hold is undefined
behaviour in C++; theorems about this strategy therefore restrict
themselves to call sequences that only unlock held cells.
-/

/-- The state of `Simple_grid_locking_ds_with_mutex` as seen by the single
modelled thread: per-cell recursive-mutex acquisition counts, the bitmap
and the locked-cell list. -/
structure MutexGridLockState where
  grid : List Nat
  tlsGrid : List Bool
  tlsLockedCells : List Nat
deriving DecidableEq

/-- Fresh manager, fresh thread (lines 500-502 and the thread-local
initializers). -/
def initMutexGridLockState (numCells : Nat) : MutexGridLockState :=
  { grid := List.replicate numCells 0
    tlsGrid := List.replicate numCells false
    tlsLockedCells := [] }

/-- Source `Simple_grid_locking_ds_with_mutex::try_lock(int)` (lines 527-547):
reentrant fast path, then `m_grid[cell_index].try_lock()`, which for the
only modelled thread always succeeds. -/
def tryLockCellMutex (s : MutexGridLockState) (cellIndex : Nat) :
    Bool × MutexGridLockState :=
  if s.tlsGrid.getD cellIndex false then
    (true, s)
  else
    (true,
      { grid := s.grid.set cellIndex (s.grid.getD cellIndex 0 + 1)
        tlsGrid := s.tlsGrid.set cellIndex true
        tlsLockedCells := s.tlsLockedCells ++ [cellIndex] })

/-- Source `Simple_grid_locking_ds_with_mutex::unlock(int)` (lines 639-644):
`m_grid[cell_index].unlock()` (decrement; undefined in C++ when the count
is zero) and clear the thread-local bit. -/
def unlockCellMutex (s : MutexGridLockState) (cellIndex : Nat) : MutexGridLockState :=
  { grid := s.grid.set cellIndex (s.grid.getD cellIndex 0 - 1)
    tlsGrid := s.tlsGrid.set cellIndex false
    tlsLockedCells := s.tlsLockedCells }

/-- Function `unlock_all_tls_locked_cells` of the mutex strategy (lines 646-659). -/
def unlockAllTlsLockedCellsMutex (s : MutexGridLockState) : MutexGridLockState :=
  let s' := s.tlsLockedCells.foldl
    (fun t c => if t.tlsGrid.getD c false then unlockCellMutex t c else t) s
  { s' with tlsLockedCells := [] }

/-- Function `check_if_all_tls_cells_are_unlocked` of the mutex strategy
(lines 661-669). -/
def checkIfAllTlsCellsAreUnlockedMutex (numCells : Nat) (s : MutexGridLockState) : Bool :=
  (List.range numCells).all fun i => ! s.tlsGrid.getD i false

/-!
Single-thread call sequences against the shared contract of the three
strategies: `try_lock(int)`, `unlock(int)`, `unlock_all_tls_locked_cells`
and `check_if_all_tls_cells_are_unlocked`.
-/

/-- One call of the shared single-cell contract. -/
inductive LockCall where
  | tryLockCall (c : Nat) : LockCall
  | unlockCall (c : Nat) : LockCall
  | releaseAllCall : LockCall
  | allReleasedCall : LockCall
deriving DecidableEq

/-- One call against the binary-CAS strategy; boolean-returning calls
yield `some` output. -/
def binStep (numCells : Nat) (s : GridLockState) : LockCall → Option Bool × GridLockState
  | .tryLockCall c =>
    let r := tryLockCell s c
    (some r.1, r.2)
  | .unlockCall c => (none, unlockCell s c)
  | .releaseAllCall => (none, unlockAllTlsLockedCells s)
  | .allReleasedCall => (some (checkIfAllTlsCellsAreUnlocked numCells s), s)

/-- Run a call sequence against the binary-CAS strategy, collecting the
outputs. -/
def binRun (numCells : Nat) : GridLockState → List LockCall →
    List (Option Bool) × GridLockState
  | s, [] => ([], s)
  | s, call :: rest =>
    let r := binStep numCells s call
    let rr := binRun numCells r.2 rest
    (r.1 :: rr.1, rr.2)

/-- One call against the owner-id strategy; `none` marks the call sequence
getting stuck in the spin loop (no other thread will free the slot). -/
def ownerStep (numCells tid : Nat) (s : OwnerGridLockState) :
    LockCall → Option (Option Bool × OwnerGridLockState)
  | .tryLockCall c =>
    match tryLockCellOwner tid s c with
    | (.success, s') => some (some true, s')
    | (.failure, s') => some (some false, s')
    | (.spins, _) => none
  | .unlockCall c => some (none, unlockCellOwner s c)
  | .releaseAllCall => some (none, unlockAllTlsLockedCellsOwner s)
  | .allReleasedCall => some (some (checkIfAllTlsCellsAreUnlockedOwner numCells s), s)

/-- Run a call sequence against the owner-id strategy; `none` if any call
spins forever. -/
def ownerRun (numCells tid : Nat) : OwnerGridLockState → List LockCall →
    Option (List (Option Bool) × OwnerGridLockState)
  | s, [] => some ([], s)
  | s, call :: rest =>
    match ownerStep numCells tid s call with
    | none => none
    | some r =>
      match ownerRun numCells tid r.2 rest with
      | none => none
      | some rr => some (r.1 :: rr.1, rr.2)

/-- One call against the mutex strategy. -/
def mutexStep (numCells : Nat) (s : MutexGridLockState) :
    LockCall → Option Bool × MutexGridLockState
  | .tryLockCall c =>
    let r := tryLockCellMutex s c
    (some r.1, r.2)
  | .unlockCall c => (none, unlockCellMutex s c)
  | .releaseAllCall => (none, unlockAllTlsLockedCellsMutex s)
  | .allReleasedCall => (some (checkIfAllTlsCellsAreUnlockedMutex numCells s), s)

/-- Run a call sequence against the mutex strategy. -/
def mutexRun (numCells : Nat) : MutexGridLockState → List LockCall →
    List (Option Bool) × MutexGridLockState
  | s, [] => ([], s)
  | s, call :: rest =>
    let r := mutexStep numCells s call
    let rr := mutexRun numCells r.2 rest
    (r.1 :: rr.1, rr.2)

/-- One call staying inside the shared contract in a given state:
`try_lock` only on an in-range cell, `unlock` only on a cell the thread
currently holds (unlocking an unheld cell is undefined behaviour for the
mutex strategy and lock theft for the other two). -/
def validCall (numCells : Nat) (s : GridLockState) : LockCall → Bool
  | .tryLockCall c => decide (c < numCells)
  | .unlockCall c => s.tlsGrid.getD c false
  | .releaseAllCall => true
  | .allReleasedCall => true

/-- A call sequence that stays inside the shared contract, tracked along
the binary-CAS run. -/
def validCalls (numCells : Nat) : GridLockState → List LockCall → Bool
  | _, [] => true
  | s, call :: rest =>
    validCall numCells s call && validCalls numCells (binStep numCells s call).2 rest

/-- A sequence of single-cell acquisitions by one thread (used for the
release-all round trip). -/
def runTryLocks (s : GridLockState) (cs : List Nat) : GridLockState :=
  cs.foldl (fun t c => (tryLockCell t c).2) s

/-- The demo bounding volume of the spec scenario: `[0,0,0]-[10,10,10]`. -/
def demoBbox : Bbox3 :=
  ⟨0, 0, 0, 10, 10, 10⟩

/-- The demo manager: `cells_per_axis = 10` over the demo bounding volume. -/
def demoParams : GridParams :=
  mkGridParams demoBbox 10

/-- The demo point `(5.5, 5.5, 5.5)`. -/
def demoPoint : Point3 :=
  ⟨5.5, 5.5, 5.5⟩

/-- A small manager for concrete region runs: `[0,0,0]-[2,2,2]` with two
cells per axis (eight cells, unit resolution). -/
def smallParams : GridParams :=
  mkGridParams ⟨0, 0, 0, 2, 2, 2⟩ 2

/-- A caller state on the eight-cell grid: the calling thread holds cell 0
from an earlier call (grid slot set, ledger bit set, listed), and another
thread holds cell 4 (grid slot set, ledger bit clear). -/
def preHeldState : GridLockState :=
  { grid := [true, false, false, false, true, false, false, false]
    tlsGrid := [true, false, false, false, false, false, false, false]
    tlsLockedCells := [0] }

/-- Simulation relation for the single-thread strategy equivalence: the
three managers agree on the caller's ledger bitmap and locked-cell list;
the binary shared grid mirrors the ledger; the owner-id grid holds the
caller's id exactly on ledger-set cells; the mutex counts are 1 exactly on
ledger-set cells. -/
structure StrategySim (tid nc : Nat) (sb : GridLockState)
    (so : OwnerGridLockState) (sm : MutexGridLockState) : Prop where
  len_tls : sb.tlsGrid.length = nc
  bin_grid : sb.grid = sb.tlsGrid
  owner_tls : so.tlsGrid = sb.tlsGrid
  mutex_tls : sm.tlsGrid = sb.tlsGrid
  owner_grid : so.grid = sb.tlsGrid.map fun b => if b then tid else 0
  mutex_grid : sm.grid = sb.tlsGrid.map fun b => if b then 1 else 0
  owner_list : so.tlsLockedCells = sb.tlsLockedCells
  mutex_list : sm.tlsLockedCells = sb.tlsLockedCells

/-!  Helper lemmas about `List.set` and `List.getD`. -/

theorem getD_set_self {α : Type} (l : List α) (c : Nat) (a d : α) :
    (l.set c a).getD c d = if c < l.length then a else d := by
  rw [List.getD_eq_getElem?_getD, List.getElem?_set]
  by_cases h : c < l.length <;> simp [h]

theorem getD_set_ne {α : Type} (l : List α) (c i : Nat) (a d : α) (h : i ≠ c) :
    (l.set c a).getD i d = l.getD i d := by
  rw [List.getD_eq_getElem?_getD, List.getElem?_set_ne (fun hh => h hh.symm),
    ← List.getD_eq_getElem?_getD]

theorem getD_set_false_self (l : List Bool) (c : Nat) :
    (l.set c false).getD c false = false := by
  rw [getD_set_self]
  simp

theorem getD_true_lt_length (l : List Bool) (i : Nat)
    (h : l.getD i false = true) : i < l.length := by
  by_contra hn
  rw [List.getD_eq_default _ _ (Nat.le_of_not_lt hn)] at h
  exact Bool.false_ne_true h

theorem getD_map_of_lt {α β : Type} (f : α → β) (l : List α) (i : Nat)
    (d : α) (d' : β) (h : i < l.length) :
    (l.map f).getD i d' = f (l.getD i d) := by
  have h1 : l[i]? = some (l.getD i d) := by
    rw [List.getD_eq_getElem _ _ h]
    exact List.getElem?_eq_getElem h
  rw [List.getD_eq_getElem?_getD, List.getElem?_map, h1]
  rfl

/-- C4 helper: a reentrant `try_lock` is the identity on the state. -/
theorem tryLockCell_of_held (s : GridLockState) (c : Nat)
    (h : s.tlsGrid.getD c false = true) : tryLockCell s c = (true, s) := by
  unfold tryLockCell
  rw [h]
  simp

/-- C1: in the owner-id strategy, against a slot held by another thread,
the acquisition loop spins exactly when the holder's id is below the
caller's id and returns `false` immediately exactly when the holder's id is
above the caller's id (the reverse of the spec's §4.2 sentence; it matches
the spec's §5 sentence that a thread only ever waits on strictly
lower-numbered threads). -/
theorem tryLockCellOwner_spin_fail_direction (s : OwnerGridLockState)
    (tid c : Nat) (hbit : s.tlsGrid.getD c false = false)
    (hheld : s.grid.getD c 0 ≠ 0) (hne : s.grid.getD c 0 ≠ tid) :
    ((tryLockCellOwner tid s c).1 = OwnerAttempt.spins ↔ s.grid.getD c 0 < tid) ∧
    ((tryLockCellOwner tid s c).1 = OwnerAttempt.failure ↔ tid < s.grid.getD c 0) := by
  have hmain : (tryLockCellOwner tid s c).1 = ownerAttempt (s.grid.getD c 0) tid := by
    unfold tryLockCellOwner
    rw [hbit]
    simp only [Bool.false_eq_true, if_false]
    cases ownerAttempt (s.grid.getD c 0) tid <;> rfl
  rw [hmain]
  unfold ownerAttempt
  rw [if_neg hheld]
  by_cases hlt : s.grid.getD c 0 < tid
  · rw [if_pos hlt]
    exact ⟨⟨fun _ => hlt, fun _ => rfl⟩,
      ⟨fun hx => (nomatch hx), fun hx => absurd hlt (Nat.not_lt.mpr (Nat.le_of_lt hx))⟩⟩
  · rw [if_neg hlt]
    have hgt : tid < s.grid.getD c 0 := by omega
    exact ⟨⟨fun hx => (nomatch hx), fun hx => absurd hx hlt⟩,
      ⟨fun _ => hgt, fun _ => rfl⟩⟩

/-- C1 witness: holder id 1, caller id 2, single-cell grid. -/
theorem tryLockCellOwner_spin_fail_direction_witness :
    ((tryLockCellOwner 2 ⟨[1], [false], []⟩ 0).1 = OwnerAttempt.spins ↔
      (OwnerGridLockState.mk [1] [false] []).grid.getD 0 0 < 2) ∧
    ((tryLockCellOwner 2 ⟨[1], [false], []⟩ 0).1 = OwnerAttempt.failure ↔
      2 < (OwnerGridLockState.mk [1] [false] []).grid.getD 0 0) :=
  tryLockCellOwner_spin_fail_direction ⟨[1], [false], []⟩ 2 0
    (by decide) (by decide) (by decide)

/-- C1 counterexample: with the holder's id 1 strictly below the caller's
id 2, the claim says the call fails immediately, but the loop spins. -/
theorem tryLockCellOwner_spins_on_lower_holder :
    (tryLockCellOwner 2 ⟨[1], [false], []⟩ 0).1 = OwnerAttempt.spins ∧
    (OwnerGridLockState.mk [1] [false] []).grid.getD 0 0 < 2 := by
  decide

/-- C4: a thread that already holds cell `c` (its ledger bit is set) can
call `try_lock(c)` any number of times; each call returns `true` and the
whole state — shared grid, ledger bitmap, locked-cell list — is unchanged. -/
theorem tryLockCell_reentrant (s : GridLockState) (c : Nat)
    (h : s.tlsGrid.getD c false = true) :
    tryLockCell s c = (true, s) ∧
    ∀ n : Nat, (fun t => (tryLockCell t c).2)^[n] s = s := by
  refine ⟨tryLockCell_of_held s c h, fun n => Function.iterate_fixed ?_ n⟩
  rw [tryLockCell_of_held s c h]

/-- C4 witness: a two-cell state holding cell 1. -/
theorem tryLockCell_reentrant_witness :
    tryLockCell ⟨[false, true], [false, true], [1]⟩ 1 =
      (true, ⟨[false, true], [false, true], [1]⟩) ∧
    ∀ n : Nat, (fun t => (tryLockCell t 1).2)^[n] ⟨[false, true], [false, true], [1]⟩ =
      ⟨[false, true], [false, true], [1]⟩ :=
  tryLockCell_reentrant ⟨[false, true], [false, true], [1]⟩ 1 (by decide)

/-- C7: a failing single-cell `try_lock` on a cell the caller does not hold
leaves the shared grid, the ledger bitmap and the locked-cell list exactly
as they were. -/
theorem tryLockCell_fail_frame (s : GridLockState) (c : Nat)
    (hbit : s.tlsGrid.getD c false = false)
    (hfail : (tryLockCell s c).1 = false) :
    (tryLockCell s c).2 = s := by
  unfold tryLockCell at hfail ⊢
  rw [hbit] at hfail ⊢
  simp only [Bool.false_eq_true, if_false] at hfail ⊢
  by_cases hg : s.grid.getD c false = false
  · rw [if_pos hg] at hfail
    simp at hfail
  · rw [if_neg hg]

/-- C7 witness: contended single-cell grid. -/
theorem tryLockCell_fail_frame_witness :
    (tryLockCell ⟨[true], [false], []⟩ 0).2 = ⟨[true], [false], []⟩ :=
  tryLockCell_fail_frame ⟨[true], [false], []⟩ 0 (by decide) (by decide)

/-- C10: `unlock(int)` clears the shared slot and the caller's ledger bit
unconditionally, with no check that the caller holds the cell; in
particular a thread calling it on a cell held by another thread (slot set,
own ledger bit clear) frees that other thread's lock. -/
theorem unlockCell_unconditional (s : GridLockState) (c : Nat)
    (_hother : s.grid.getD c false = true)
    (_hnotmine : s.tlsGrid.getD c false = false) :
    unlockCell s c =
      ⟨s.grid.set c false, s.tlsGrid.set c false, s.tlsLockedCells⟩ ∧
    (unlockCell s c).grid.getD c false = false := by
  refine ⟨rfl, ?_⟩
  simpa [unlockCell] using getD_set_false_self s.grid c

/-- C10 witness: another thread holds cell 0; the caller's unlock frees it. -/
theorem unlockCell_unconditional_witness :
    unlockCell ⟨[true], [false], []⟩ 0 =
      ⟨[true].set 0 false, [false].set 0 false, []⟩ ∧
    (unlockCell ⟨[true], [false], []⟩ 0).grid.getD 0 false = false :=
  unlockCell_unconditional ⟨[true], [false], []⟩ 0 (by decide) (by decide)

/-- C8: the region overload returns the cell index of the point itself as
the second component on every path, and with `lock_radius = 0` its boolean
result is that of the single-cell `try_lock` on the point's cell. -/
theorem tryLockRegion_center_index (pa : GridParams) (s : GridLockState)
    (p : Point3) (r : Int) :
    (tryLockRegion pa s p r).1.2 = cellIndexOf pa p ∧
    (r = 0 →
      (tryLockRegion pa s p r).1.1 = (tryLockCell s (cellIndexOf pa p).toNat).1) := by
  constructor
  · simp only [tryLockRegion, tryLockRegionAt, cellIndexOf]
    split <;> rfl
  · intro hr
    subst hr
    simp [tryLockRegion, tryLockRegionAt, cellIndexOf]

/-- C6: with the manager built by the constructor, each axis coordinate is
the truncated scaled offset clamped into `[0, N-1]`, the cell index is
`iz*N*N + iy*N + ix`, every point maps into `[0, N^3 - 1]`, and on the
bounding volume `[0,0,0]-[10,10,10]` with ten cells per axis the point
`(5.5, 5.5, 5.5)` maps to index 555. -/
theorem cellIndexOf_valid_range (bbox : Bbox3) (n : Int) (p : Point3)
    (hn : 0 < n) :
    (∃ ix iy iz : Int,
      0 ≤ ix ∧ ix < n ∧ 0 ≤ iy ∧ iy < n ∧ 0 ≤ iz ∧ iz < n ∧
      cellIndexOf (mkGridParams bbox n) p = iz * n * n + iy * n + ix) ∧
    0 ≤ cellIndexOf (mkGridParams bbox n) p ∧
    cellIndexOf (mkGridParams bbox n) p ≤ n * n * n - 1 ∧
    cellIndexOf demoParams demoPoint = 555 := by
  have hcoord : ∀ minv res coord : ℚ, 0 ≤ cellCoord n minv res coord ∧
      cellCoord n minv res coord ≤ n - 1 := by
    intro minv res coord
    refine ⟨le_max_left 0 _, max_le (by omega) (min_le_right _ _)⟩
  have hx := hcoord (mkGridParams bbox n).xmin (mkGridParams bbox n).resolutionX p.x
  have hy := hcoord (mkGridParams bbox n).ymin (mkGridParams bbox n).resolutionY p.y
  have hz := hcoord (mkGridParams bbox n).zmin (mkGridParams bbox n).resolutionZ p.z
  have hxx : cellCoordX (mkGridParams bbox n) p =
      cellCoord n (mkGridParams bbox n).xmin (mkGridParams bbox n).resolutionX p.x := rfl
  have hyy : cellCoordY (mkGridParams bbox n) p =
      cellCoord n (mkGridParams bbox n).ymin (mkGridParams bbox n).resolutionY p.y := rfl
  have hzz : cellCoordZ (mkGridParams bbox n) p =
      cellCoord n (mkGridParams bbox n).zmin (mkGridParams bbox n).resolutionZ p.z := rfl
  have hix0 := (hxx ▸ hx).1
  have hix1 := (hxx ▸ hx).2
  have hiy0 := (hyy ▸ hy).1
  have hiy1 := (hyy ▸ hy).2
  have hiz0 := (hzz ▸ hz).1
  have hiz1 := (hzz ▸ hz).2
  have hidx : cellIndexOf (mkGridParams bbox n) p =
      cellCoordZ (mkGridParams bbox n) p * n * n
        + cellCoordY (mkGridParams bbox n) p * n
        + cellCoordX (mkGridParams bbox n) p := rfl
  refine ⟨⟨cellCoordX (mkGridParams bbox n) p, cellCoordY (mkGridParams bbox n) p,
      cellCoordZ (mkGridParams bbox n) p,
      hix0, by omega, hiy0, by omega, hiz0, by omega, hidx⟩, ?_, ?_, ?_⟩
  · rw [hidx]
    have h1 : 0 ≤ cellCoordZ (mkGridParams bbox n) p * n * n :=
      mul_nonneg (mul_nonneg hiz0 hn.le) hn.le
    have h2 : 0 ≤ cellCoordY (mkGridParams bbox n) p * n := mul_nonneg hiy0 hn.le
    linarith
  · rw [hidx]
    have h1 : cellCoordZ (mkGridParams bbox n) p * n * n ≤ (n - 1) * n * n :=
      mul_le_mul_of_nonneg_right (mul_le_mul_of_nonneg_right hiz1 hn.le) hn.le
    have h2 : cellCoordY (mkGridParams bbox n) p * n ≤ (n - 1) * n :=
      mul_le_mul_of_nonneg_right hiy1 hn.le
    have h3 : (n - 1) * n * n + (n - 1) * n + (n - 1) = n * n * n - 1 := by ring
    linarith
  · norm_num [cellIndexOf, cellCoordX, cellCoordY, cellCoordZ, cellCoord,
      demoParams, demoBbox, demoPoint, mkGridParams, ratTrunc]
    decide

/-- C6 witness: the demo manager with ten cells per axis at the demo
point. -/
theorem cellIndexOf_valid_range_witness :
    0 ≤ cellIndexOf demoParams demoPoint ∧
    cellIndexOf demoParams demoPoint ≤ 10 * 10 * 10 - 1 ∧
    cellIndexOf demoParams demoPoint = 555 :=
  ⟨(cellIndexOf_valid_range demoBbox 10 demoPoint (by decide)).2.1,
    (cellIndexOf_valid_range demoBbox 10 demoPoint (by decide)).2.2.1,
    (cellIndexOf_valid_range demoBbox 10 demoPoint (by decide)).2.2.2⟩

/-- C3 counterexample: construction with a zero-extent x axis (and
separately with `cells_per_axis = 0`) does not fail: it produces a manager
whose fields are the unchecked formula values (the rational 0 standing in
for the C++ division by zero), so no defined construction error exists. -/
theorem mkGridParams_no_error_on_degenerate :
    mkGridParams ⟨0, 0, 0, 0, 10, 10⟩ 4 =
      { numGridCellsPerAxis := 4, xmin := 0, ymin := 0, zmin := 0,
        resolutionX := 0, resolutionY := 2 / 5, resolutionZ := 2 / 5 } ∧
    mkGridParams ⟨0, 0, 0, 10, 10, 10⟩ 0 =
      { numGridCellsPerAxis := 0, xmin := 0, ymin := 0, zmin := 0,
        resolutionX := 0, resolutionY := 0, resolutionZ := 0 } ∧
    numCellsOf 0 = 0 := by
  refine ⟨?_, ?_, rfl⟩ <;> simp [mkGridParams, GridParams.mk.injEq] <;> norm_num

/-- C3 amended: the constructor performs no validation at all — for every
input, including non-positive `cells_per_axis` and zero-extent axes, it
produces a manager; a non-positive axis count gives an empty grid
allocation and a zero-extent axis gives the degenerate resolution
(C++ divide-by-zero, 0 in this model), with no error surfaced. -/
theorem mkGridParams_total_no_validation (bbox : Bbox3) (n : Int) :
    (mkGridParams bbox n).numGridCellsPerAxis = n ∧
    (n ≤ 0 → numCellsOf n = 0) ∧
    (bbox.xmax - bbox.xmin = 0 → (mkGridParams bbox n).resolutionX = 0) ∧
    (bbox.ymax - bbox.ymin = 0 → (mkGridParams bbox n).resolutionY = 0) ∧
    (bbox.zmax - bbox.zmin = 0 → (mkGridParams bbox n).resolutionZ = 0) := by
  refine ⟨rfl, ?_, ?_, ?_, ?_⟩
  · intro hn
    have hcube : n * n * n ≤ 0 := by nlinarith [mul_self_nonneg n]
    exact Int.toNat_of_nonpos hcube
  · intro h
    show (n : ℚ) / (bbox.xmax - bbox.xmin) = 0
    rw [h, div_zero]
  · intro h
    show (n : ℚ) / (bbox.ymax - bbox.ymin) = 0
    rw [h, div_zero]
  · intro h
    show (n : ℚ) / (bbox.zmax - bbox.zmin) = 0
    rw [h, div_zero]

/-- C3 amended witness: zero-extent x axis with a negative cell count. -/
theorem mkGridParams_total_no_validation_witness :
    (mkGridParams ⟨0, 0, 0, 0, 10, 10⟩ (-1)).numGridCellsPerAxis = -1 ∧
    numCellsOf (-1) = 0 ∧
    (mkGridParams ⟨0, 0, 0, 0, 10, 10⟩ (-1)).resolutionX = 0 :=
  ⟨(mkGridParams_total_no_validation ⟨0, 0, 0, 0, 10, 10⟩ (-1)).1,
    (mkGridParams_total_no_validation ⟨0, 0, 0, 0, 10, 10⟩ (-1)).2.1 (by decide),
    (mkGridParams_total_no_validation ⟨0, 0, 0, 0, 10, 10⟩ (-1)).2.2.1 (by norm_num)⟩

/-- C2, evaluated at the failing input: on the eight-cell manager the
calling thread holds cell 0 from an earlier call and another thread holds
cell 4; a radius-1 region lock around the origin visits cell 0 first
(reentrant success, recorded in `locked_cells_tmp`), fails on cell 4, and
the rollback then unlocks cell 0 too — after the failed call the thread no
longer holds cell 0, contradicting the claim that prior reentrant holdings
survive a failed `try_lock_region`. -/
theorem tryLockRegion_rollback_releases_prior_holding :
    preHeldState.tlsGrid.getD 0 false = true ∧
    (tryLockRegion smallParams preHeldState ⟨0, 0, 0⟩ 1).1.1 = false ∧
    (tryLockRegion smallParams preHeldState ⟨0, 0, 0⟩ 1).2.tlsGrid.getD 0 false = false ∧
    (tryLockRegion smallParams preHeldState ⟨0, 0, 0⟩ 1).2.grid.getD 0 false = false := by
  have hx : cellCoordX smallParams ⟨0, 0, 0⟩ = 0 := by
    norm_num [cellCoordX, cellCoord, smallParams, mkGridParams, ratTrunc]
  have hy : cellCoordY smallParams ⟨0, 0, 0⟩ = 0 := by
    norm_num [cellCoordY, cellCoord, smallParams, mkGridParams, ratTrunc]
  have hz : cellCoordZ smallParams ⟨0, 0, 0⟩ = 0 := by
    norm_num [cellCoordZ, cellCoord, smallParams, mkGridParams, ratTrunc]
  have hru : tryLockRegion smallParams preHeldState ⟨0, 0, 0⟩ 1 =
      tryLockRegionAt 2 preHeldState 0 0 0 1 := by
    rw [tryLockRegion, hx, hy, hz]
    rfl
  rw [hru]
  decide

theorem getD_replicate_false (nc i : Nat) :
    (List.replicate nc false).getD i false = false := by
  rw [List.getD_eq_getElem?_getD, List.getElem?_replicate]
  split <;> rfl

/-- C5 helper: one `try_lock` preserves the invariant that every
ledger-set cell is recorded in the locked-cell list. -/
theorem tryLockCell_ledger_sub_list (s : GridLockState) (c : Nat)
    (hP : ∀ i, s.tlsGrid.getD i false = true → i ∈ s.tlsLockedCells) :
    ∀ i, (tryLockCell s c).2.tlsGrid.getD i false = true →
      i ∈ (tryLockCell s c).2.tlsLockedCells := by
  intro i hi
  unfold tryLockCell at hi ⊢
  by_cases hb : s.tlsGrid.getD c false = true
  · rw [if_pos hb] at hi ⊢
    exact hP i hi
  · rw [if_neg hb] at hi ⊢
    by_cases hg : s.grid.getD c false = false
    · rw [if_pos hg] at hi ⊢
      by_cases hic : i = c
      · subst hic
        exact List.mem_append.mpr (Or.inr (List.mem_singleton.mpr rfl))
      · rw [getD_set_ne _ _ _ _ _ hic] at hi
        exact List.mem_append.mpr (Or.inl (hP i hi))
    · rw [if_neg hg] at hi ⊢
      exact hP i hi

/-- C5 helper: the invariant holds after any sequence of acquisitions. -/
theorem runTryLocks_ledger_sub_list (cs : List Nat) (s : GridLockState)
    (hP : ∀ i, s.tlsGrid.getD i false = true → i ∈ s.tlsLockedCells) :
    ∀ i, (runTryLocks s cs).tlsGrid.getD i false = true →
      i ∈ (runTryLocks s cs).tlsLockedCells := by
  induction cs generalizing s with
  | nil => exact hP
  | cons c rest ih =>
    have h1 : runTryLocks s (c :: rest) = runTryLocks (tryLockCell s c).2 rest := rfl
    rw [h1]
    exact ih _ (tryLockCell_ledger_sub_list s c hP)

/-- C5 helper: one step of the release-all fold turns the invariant for
`c :: rest` into the invariant for `rest`. -/
theorem unlockStep_ledger_sub_list (s : GridLockState) (c : Nat) (rest : List Nat)
    (h : ∀ j, s.tlsGrid.getD j false = true → j ∈ c :: rest) :
    ∀ j, (if s.tlsGrid.getD c false then unlockCell s c else s).tlsGrid.getD j false = true →
      j ∈ rest := by
  intro j hj
  by_cases hb : s.tlsGrid.getD c false = true
  · rw [if_pos hb] at hj
    by_cases hjc : j = c
    · subst hjc
      rw [show (unlockCell s j).tlsGrid = s.tlsGrid.set j false from rfl,
        getD_set_false_self] at hj
      cases hj
    · rw [show (unlockCell s c).tlsGrid = s.tlsGrid.set c false from rfl,
        getD_set_ne _ _ _ _ _ hjc] at hj
      rcases List.mem_cons.mp (h j hj) with h1 | h1
      · exact absurd h1 hjc
      · exact h1
  · rw [if_neg hb] at hj
    rcases List.mem_cons.mp (h j hj) with h1 | h1
    · subst h1
      exact absurd hj hb
    · exact h1

/-- C5 helper: the release-all fold never sets a shared grid slot. -/
theorem unlockFold_grid_false (cs : List Nat) (s : GridLockState) (i : Nat)
    (h : s.grid.getD i false = false) :
    (cs.foldl (fun t c => if t.tlsGrid.getD c false then unlockCell t c else t)
      s).grid.getD i false = false := by
  induction cs generalizing s with
  | nil => exact h
  | cons c rest ih =>
    rw [List.foldl_cons]
    apply ih
    by_cases hb : s.tlsGrid.getD c false = true
    · rw [if_pos hb]
      by_cases hic : i = c
      · subst hic
        exact getD_set_false_self s.grid i
      · rw [show (unlockCell s c).grid = s.grid.set c false from rfl,
          getD_set_ne _ _ _ _ _ hic]
        exact h
    · rw [if_neg hb]
      exact h

/-- C5 helper: after the release-all fold over a list containing every
ledger-set cell, the whole ledger is clear. -/
theorem unlockFold_tls_false (cs : List Nat) (s : GridLockState)
    (h : ∀ i, s.tlsGrid.getD i false = true → i ∈ cs) :
    ∀ i, (cs.foldl (fun t c => if t.tlsGrid.getD c false then unlockCell t c else t)
      s).tlsGrid.getD i false = false := by
  induction cs generalizing s with
  | nil =>
    intro i
    rw [List.foldl_nil]
    cases hv : s.tlsGrid.getD i false
    · rfl
    · exact absurd (h i hv) (List.not_mem_nil i)
  | cons c rest ih =>
    rw [List.foldl_cons]
    exact ih _ (unlockStep_ledger_sub_list s c rest h)

/-- C5 helper: after the release-all fold over a list containing every
ledger-set cell, every cell that was ledger-set has its shared slot
cleared. -/
theorem unlockFold_grid_cleared (cs : List Nat) (s : GridLockState)
    (h : ∀ j, s.tlsGrid.getD j false = true → j ∈ cs) :
    ∀ i, s.tlsGrid.getD i false = true →
      (cs.foldl (fun t c => if t.tlsGrid.getD c false then unlockCell t c else t)
        s).grid.getD i false = false := by
  induction cs generalizing s with
  | nil =>
    intro i hi
    exact absurd (h i hi) (List.not_mem_nil i)
  | cons c rest ih =>
    intro i hi
    rw [List.foldl_cons]
    by_cases hic : i = c
    · subst hic
      apply unlockFold_grid_false
      rw [if_pos hi]
      exact getD_set_false_self s.grid i
    · apply ih _ (unlockStep_ledger_sub_list s c rest h) i
      by_cases hb : s.tlsGrid.getD c false = true
      · rw [if_pos hb,
          show (unlockCell s c).tlsGrid = s.tlsGrid.set c false from rfl,
          getD_set_ne _ _ _ _ _ hic]
        exact hi
      · rw [if_neg hb]
        exact hi

/-- C5: starting from a fresh manager, after any single-thread sequence of
lock acquisitions, `unlock_all_tls_locked_cells` empties the locked-cell
list, clears the whole ledger bitmap (so
`check_if_all_tls_cells_are_unlocked` returns true), and frees the shared
slot of every cell the thread held. -/
theorem releaseAll_roundtrip (nc : Nat) (cs : List Nat) :
    (unlockAllTlsLockedCells (runTryLocks (initGridLockState nc) cs)).tlsLockedCells = [] ∧
    (∀ i, (unlockAllTlsLockedCells
      (runTryLocks (initGridLockState nc) cs)).tlsGrid.getD i false = false) ∧
    checkIfAllTlsCellsAreUnlocked nc
      (unlockAllTlsLockedCells (runTryLocks (initGridLockState nc) cs)) = true ∧
    (∀ i, (runTryLocks (initGridLockState nc) cs).tlsGrid.getD i false = true →
      (unlockAllTlsLockedCells
        (runTryLocks (initGridLockState nc) cs)).grid.getD i false = false) := by
  have hinit : ∀ i, (initGridLockState nc).tlsGrid.getD i false = true →
      i ∈ (initGridLockState nc).tlsLockedCells := by
    intro i hi
    rw [show (initGridLockState nc).tlsGrid = List.replicate nc false from rfl,
      getD_replicate_false] at hi
    cases hi
  have hP := runTryLocks_ledger_sub_list cs (initGridLockState nc) hinit
  have htls := unlockFold_tls_false
    (runTryLocks (initGridLockState nc) cs).tlsLockedCells
    (runTryLocks (initGridLockState nc) cs) hP
  have hgrid := unlockFold_grid_cleared
    (runTryLocks (initGridLockState nc) cs).tlsLockedCells
    (runTryLocks (initGridLockState nc) cs) hP
  refine ⟨rfl, htls, ?_, hgrid⟩
  unfold checkIfAllTlsCellsAreUnlocked
  rw [List.all_eq_true]
  intro i _
  rw [show (unlockAllTlsLockedCells (runTryLocks (initGridLockState nc) cs)).tlsGrid =
    ((runTryLocks (initGridLockState nc) cs).tlsLockedCells.foldl
      (fun t c => if t.tlsGrid.getD c false then unlockCell t c else t)
      (runTryLocks (initGridLockState nc) cs)).tlsGrid from rfl, htls i]
  rfl

/-- C5 witness: four acquisitions (one reentrant, one out of range) on an
eight-cell manager, then release-all. -/
theorem releaseAll_roundtrip_witness :
    (unlockAllTlsLockedCells (runTryLocks (initGridLockState 8) [0, 3, 0, 9])).tlsLockedCells = [] ∧
    (∀ i, (unlockAllTlsLockedCells
      (runTryLocks (initGridLockState 8) [0, 3, 0, 9])).tlsGrid.getD i false = false) ∧
    checkIfAllTlsCellsAreUnlocked 8
      (unlockAllTlsLockedCells (runTryLocks (initGridLockState 8) [0, 3, 0, 9])) = true ∧
    (∀ i, (runTryLocks (initGridLockState 8) [0, 3, 0, 9]).tlsGrid.getD i false = true →
      (unlockAllTlsLockedCells
        (runTryLocks (initGridLockState 8) [0, 3, 0, 9])).grid.getD i false = false) :=
  releaseAll_roundtrip 8 [0, 3, 0, 9]

/-- C8 witness: radius 0 at the demo point on the fresh demo manager. -/
theorem tryLockRegion_center_index_witness :
    (tryLockRegion demoParams (initGridLockState 1000) demoPoint 0).1.2 =
      cellIndexOf demoParams demoPoint ∧
    ((0 : Int) = 0 →
      (tryLockRegion demoParams (initGridLockState 1000) demoPoint 0).1.1 =
      (tryLockCell (initGridLockState 1000) (cellIndexOf demoParams demoPoint).toNat).1) :=
  tryLockRegion_center_index demoParams (initGridLockState 1000) demoPoint 0

/-- C9 helper: the three fresh managers are in simulation. -/
theorem strategySim_init (tid nc : Nat) :
    StrategySim tid nc (initGridLockState nc) (initOwnerGridLockState nc)
      (initMutexGridLockState nc) := by
  refine ⟨List.length_replicate nc false, rfl, rfl, rfl, ?_, ?_, rfl, rfl⟩
  · show List.replicate nc 0 = (List.replicate nc false).map fun b => if b then tid else 0
    simp [List.map_replicate]
  · show List.replicate nc 0 = (List.replicate nc false).map fun b => if b then 1 else 0
    simp [List.map_replicate]

/-- C9 helper: `Bool` hypothesis conversion. -/
theorem bool_not_true_eq_false (b : Bool) (h : ¬ b = true) : b = false := by
  cases b
  · rfl
  · exact absurd rfl h

/-- C9 helper: unlocking a held cell preserves the simulation. -/
theorem strategySim_unlock (tid nc : Nat) (sb : GridLockState)
    (so : OwnerGridLockState) (sm : MutexGridLockState) (c : Nat)
    (hsim : StrategySim tid nc sb so sm)
    (hheld : sb.tlsGrid.getD c false = true) :
    StrategySim tid nc (unlockCell sb c) (unlockCellOwner so c)
      (unlockCellMutex sm c) := by
  have hlen : c < sb.tlsGrid.length := getD_true_lt_length _ _ hheld
  have hcount : sm.grid.getD c 0 = 1 := by
    rw [hsim.mutex_grid, getD_map_of_lt _ _ _ false _ hlen, hheld]
    simp
  refine ⟨?_, ?_, ?_, ?_, ?_, ?_, ?_, ?_⟩
  · show (sb.tlsGrid.set c false).length = nc
    rw [List.length_set]
    exact hsim.len_tls
  · show sb.grid.set c false = sb.tlsGrid.set c false
    rw [hsim.bin_grid]
  · show so.tlsGrid.set c false = sb.tlsGrid.set c false
    rw [hsim.owner_tls]
  · show sm.tlsGrid.set c false = sb.tlsGrid.set c false
    rw [hsim.mutex_tls]
  · show so.grid.set c 0 = (sb.tlsGrid.set c false).map fun b => if b then tid else 0
    rw [hsim.owner_grid, List.map_set]
    simp
  · show sm.grid.set c (sm.grid.getD c 0 - 1) =
      (sb.tlsGrid.set c false).map fun b => if b then 1 else 0
    rw [hcount, hsim.mutex_grid, List.map_set]
    simp
  · exact hsim.owner_list
  · exact hsim.mutex_list

/-- C9 helper: a successful fresh acquisition of an in-range, unheld cell
preserves the simulation. -/
theorem strategySim_lock (tid nc : Nat) (sb : GridLockState)
    (so : OwnerGridLockState) (sm : MutexGridLockState) (c : Nat)
    (hsim : StrategySim tid nc sb so sm) (hc : c < nc)
    (hb : sb.tlsGrid.getD c false = false) :
    StrategySim tid nc
      ⟨sb.grid.set c true, sb.tlsGrid.set c true, sb.tlsLockedCells ++ [c]⟩
      ⟨so.grid.set c tid, so.tlsGrid.set c true, so.tlsLockedCells ++ [c]⟩
      ⟨sm.grid.set c (sm.grid.getD c 0 + 1), sm.tlsGrid.set c true,
        sm.tlsLockedCells ++ [c]⟩ := by
  have hlen : c < sb.tlsGrid.length := by
    rw [hsim.len_tls]
    exact hc
  have hcount : sm.grid.getD c 0 = 0 := by
    rw [hsim.mutex_grid, getD_map_of_lt _ _ _ false _ hlen, hb]
    simp
  refine ⟨?_, ?_, ?_, ?_, ?_, ?_, ?_, ?_⟩
  · show (sb.tlsGrid.set c true).length = nc
    rw [List.length_set]
    exact hsim.len_tls
  · show sb.grid.set c true = sb.tlsGrid.set c true
    rw [hsim.bin_grid]
  · show so.tlsGrid.set c true = sb.tlsGrid.set c true
    rw [hsim.owner_tls]
  · show sm.tlsGrid.set c true = sb.tlsGrid.set c true
    rw [hsim.mutex_tls]
  · show so.grid.set c tid = (sb.tlsGrid.set c true).map fun b => if b then tid else 0
    rw [hsim.owner_grid, List.map_set]
    simp
  · show sm.grid.set c (sm.grid.getD c 0 + 1) =
      (sb.tlsGrid.set c true).map fun b => if b then 1 else 0
    rw [hcount, hsim.mutex_grid, List.map_set]
    simp
  · show so.tlsLockedCells ++ [c] = sb.tlsLockedCells ++ [c]
    rw [hsim.owner_list]
  · show sm.tlsLockedCells ++ [c] = sb.tlsLockedCells ++ [c]
    rw [hsim.mutex_list]

/-- C9 helper: the release-all folds run in lockstep and preserve the
simulation. -/
theorem strategySim_fold (tid nc : Nat) (cs : List Nat) :
    ∀ (sb : GridLockState) (so : OwnerGridLockState) (sm : MutexGridLockState),
    StrategySim tid nc sb so sm →
    StrategySim tid nc
      (cs.foldl (fun t c => if t.tlsGrid.getD c false then unlockCell t c else t) sb)
      (cs.foldl (fun t c => if t.tlsGrid.getD c false then unlockCellOwner t c else t) so)
      (cs.foldl (fun t c => if t.tlsGrid.getD c false then unlockCellMutex t c else t) sm) := by
  induction cs with
  | nil =>
    intro sb so sm hsim
    exact hsim
  | cons c rest ih =>
    intro sb so sm hsim
    rw [List.foldl_cons, List.foldl_cons, List.foldl_cons]
    by_cases hb : sb.tlsGrid.getD c false = true
    · have hbo : so.tlsGrid.getD c false = true := by
        rw [hsim.owner_tls]
        exact hb
      have hbm : sm.tlsGrid.getD c false = true := by
        rw [hsim.mutex_tls]
        exact hb
      rw [if_pos hb, if_pos hbo, if_pos hbm]
      exact ih _ _ _ (strategySim_unlock tid nc sb so sm c hsim hb)
    · have hbo : ¬ so.tlsGrid.getD c false = true := by
        rw [hsim.owner_tls]
        exact hb
      have hbm : ¬ sm.tlsGrid.getD c false = true := by
        rw [hsim.mutex_tls]
        exact hb
      rw [if_neg hb, if_neg hbo, if_neg hbm]
      exact ih _ _ _ hsim

/-- C9 helper: one valid call produces the same observable output in all
three strategies and preserves the simulation. -/
theorem strategySim_step (tid nc : Nat) (sb : GridLockState)
    (so : OwnerGridLockState) (sm : MutexGridLockState) (call : LockCall)
    (hsim : StrategySim tid nc sb so sm)
    (hok : validCall nc sb call = true) :
    ∃ so' sm',
      ownerStep nc tid so call = some ((binStep nc sb call).1, so') ∧
      mutexStep nc sm call = ((binStep nc sb call).1, sm') ∧
      StrategySim tid nc (binStep nc sb call).2 so' sm' := by
  cases call with
  | tryLockCall c =>
    have hc : c < nc := of_decide_eq_true hok
    have hlen : c < sb.tlsGrid.length := by
      rw [hsim.len_tls]
      exact hc
    by_cases hb : sb.tlsGrid.getD c false = true
    · have hbin : tryLockCell sb c = (true, sb) := tryLockCell_of_held sb c hb
      have hbo : so.tlsGrid.getD c false = true := by
        rw [hsim.owner_tls]
        exact hb
      have hbm : sm.tlsGrid.getD c false = true := by
        rw [hsim.mutex_tls]
        exact hb
      have howner : tryLockCellOwner tid so c = (OwnerAttempt.success, so) := by
        unfold tryLockCellOwner
        rw [hbo]
        simp
      have hmut : tryLockCellMutex sm c = (true, sm) := by
        unfold tryLockCellMutex
        rw [hbm]
        simp
      refine ⟨so, sm, ?_, ?_, ?_⟩
      · show (match tryLockCellOwner tid so c with
          | (OwnerAttempt.success, s') => some (some true, s')
          | (OwnerAttempt.failure, s') => some (some false, s')
          | (OwnerAttempt.spins, _) => none) = some (some (tryLockCell sb c).1, so)
        rw [howner, hbin]
      · show (some (tryLockCellMutex sm c).1, (tryLockCellMutex sm c).2) =
          (some (tryLockCell sb c).1, sm)
        rw [hmut, hbin]
      · show StrategySim tid nc (tryLockCell sb c).2 so sm
        rw [hbin]
        exact hsim
    · have hb' : sb.tlsGrid.getD c false = false := bool_not_true_eq_false _ hb
      have hgb : sb.grid.getD c false = false := by
        rw [hsim.bin_grid]
        exact hb'
      have hbin : tryLockCell sb c =
          (true, ⟨sb.grid.set c true, sb.tlsGrid.set c true, sb.tlsLockedCells ++ [c]⟩) := by
        unfold tryLockCell
        rw [hb', hgb]
        simp
      have hbo : so.tlsGrid.getD c false = false := by
        rw [hsim.owner_tls]
        exact hb'
      have hslot : so.grid.getD c 0 = 0 := by
        rw [hsim.owner_grid, getD_map_of_lt _ _ _ false _ hlen, hb']
        simp
      have howner : tryLockCellOwner tid so c = (OwnerAttempt.success,
          ⟨so.grid.set c tid, so.tlsGrid.set c true, so.tlsLockedCells ++ [c]⟩) := by
        unfold tryLockCellOwner
        rw [hbo, hslot]
        simp [ownerAttempt]
      have hbm : sm.tlsGrid.getD c false = false := by
        rw [hsim.mutex_tls]
        exact hb'
      have hmut : tryLockCellMutex sm c = (true,
          ⟨sm.grid.set c (sm.grid.getD c 0 + 1), sm.tlsGrid.set c true,
            sm.tlsLockedCells ++ [c]⟩) := by
        unfold tryLockCellMutex
        rw [hbm]
        simp
      refine ⟨⟨so.grid.set c tid, so.tlsGrid.set c true, so.tlsLockedCells ++ [c]⟩,
        ⟨sm.grid.set c (sm.grid.getD c 0 + 1), sm.tlsGrid.set c true,
          sm.tlsLockedCells ++ [c]⟩, ?_, ?_, ?_⟩
      · show (match tryLockCellOwner tid so c with
          | (OwnerAttempt.success, s') => some (some true, s')
          | (OwnerAttempt.failure, s') => some (some false, s')
          | (OwnerAttempt.spins, _) => none) = some (some (tryLockCell sb c).1,
            ⟨so.grid.set c tid, so.tlsGrid.set c true, so.tlsLockedCells ++ [c]⟩)
        rw [howner, hbin]
      · show (some (tryLockCellMutex sm c).1, (tryLockCellMutex sm c).2) =
          (some (tryLockCell sb c).1,
            ⟨sm.grid.set c (sm.grid.getD c 0 + 1), sm.tlsGrid.set c true,
              sm.tlsLockedCells ++ [c]⟩)
        rw [hmut, hbin]
      · show StrategySim tid nc (tryLockCell sb c).2
          ⟨so.grid.set c tid, so.tlsGrid.set c true, so.tlsLockedCells ++ [c]⟩
          ⟨sm.grid.set c (sm.grid.getD c 0 + 1), sm.tlsGrid.set c true,
            sm.tlsLockedCells ++ [c]⟩
        rw [hbin]
        exact strategySim_lock tid nc sb so sm c hsim hc hb'
  | unlockCall c =>
    refine ⟨unlockCellOwner so c, unlockCellMutex sm c, rfl, rfl, ?_⟩
    exact strategySim_unlock tid nc sb so sm c hsim hok
  | releaseAllCall =>
    refine ⟨unlockAllTlsLockedCellsOwner so, unlockAllTlsLockedCellsMutex sm,
      rfl, rfl, ?_⟩
    show StrategySim tid nc (unlockAllTlsLockedCells sb)
      (unlockAllTlsLockedCellsOwner so) (unlockAllTlsLockedCellsMutex sm)
    unfold unlockAllTlsLockedCells unlockAllTlsLockedCellsOwner unlockAllTlsLockedCellsMutex
    rw [hsim.owner_list, hsim.mutex_list]
    have hfold := strategySim_fold tid nc sb.tlsLockedCells sb so sm hsim
    refine ⟨?_, hfold.bin_grid, hfold.owner_tls, hfold.mutex_tls,
      hfold.owner_grid, hfold.mutex_grid, rfl, rfl⟩
    exact hfold.len_tls
  | allReleasedCall =>
    refine ⟨so, sm, ?_, ?_, hsim⟩
    · show some (some (checkIfAllTlsCellsAreUnlockedOwner nc so), so) =
        some (some (checkIfAllTlsCellsAreUnlocked nc sb), so)
      unfold checkIfAllTlsCellsAreUnlockedOwner checkIfAllTlsCellsAreUnlocked
      rw [hsim.owner_tls]
    · show (some (checkIfAllTlsCellsAreUnlockedMutex nc sm), sm) =
        (some (checkIfAllTlsCellsAreUnlocked nc sb), sm)
      unfold checkIfAllTlsCellsAreUnlockedMutex checkIfAllTlsCellsAreUnlocked
      rw [hsim.mutex_tls]

/-- C9 helper: unfolding of `binRun` on a cons cell. -/
theorem binRun_cons (nc : Nat) (s : GridLockState) (call : LockCall)
    (rest : List LockCall) :
    binRun nc s (call :: rest) =
      ((binStep nc s call).1 :: (binRun nc (binStep nc s call).2 rest).1,
        (binRun nc (binStep nc s call).2 rest).2) := rfl

/-- C9 helper: unfolding of `mutexRun` on a cons cell. -/
theorem mutexRun_cons (nc : Nat) (s : MutexGridLockState) (call : LockCall)
    (rest : List LockCall) :
    mutexRun nc s (call :: rest) =
      ((mutexStep nc s call).1 :: (mutexRun nc (mutexStep nc s call).2 rest).1,
        (mutexRun nc (mutexStep nc s call).2 rest).2) := rfl

/-- C9 helper: unfolding of `ownerRun` on a cons cell whose first step does
not spin. -/
theorem ownerRun_cons_some (nc tid : Nat) (s s1 : OwnerGridLockState)
    (call : LockCall) (rest : List LockCall) (o : Option Bool)
    (h1 : ownerStep nc tid s call = some (o, s1)) :
    ownerRun nc tid s (call :: rest) =
      match ownerRun nc tid s1 rest with
      | none => none
      | some rr => some (o :: rr.1, rr.2) := by
  show (match ownerStep nc tid s call with
    | none => none
    | some r =>
      match ownerRun nc tid r.2 rest with
      | none => none
      | some rr => some (r.1 :: rr.1, rr.2)) =
    match ownerRun nc tid s1 rest with
    | none => none
    | some rr => some (o :: rr.1, rr.2)
  rw [h1]

/-- C9 helper: valid call sequences run in lockstep from simulation-related
states, with identical outputs. -/
theorem strategySim_run (tid nc : Nat) :
    ∀ (calls : List LockCall) (sb : GridLockState) (so : OwnerGridLockState)
      (sm : MutexGridLockState),
    StrategySim tid nc sb so sm →
    validCalls nc sb calls = true →
    ∃ so' sm',
      ownerRun nc tid so calls = some ((binRun nc sb calls).1, so') ∧
      mutexRun nc sm calls = ((binRun nc sb calls).1, sm') ∧
      StrategySim tid nc (binRun nc sb calls).2 so' sm' := by
  intro calls
  induction calls with
  | nil =>
    intro sb so sm hsim _
    exact ⟨so, sm, rfl, rfl, hsim⟩
  | cons call rest ih =>
    intro sb so sm hsim hv
    have hv' : (validCall nc sb call &&
        validCalls nc (binStep nc sb call).2 rest) = true := hv
    rw [Bool.and_eq_true] at hv'
    rcases hv' with ⟨hok, hrest⟩
    obtain ⟨so1, sm1, ho1, hm1, hsim1⟩ := strategySim_step tid nc sb so sm call hsim hok
    obtain ⟨so2, sm2, ho2, hm2, hsim2⟩ := ih (binStep nc sb call).2 so1 sm1 hsim1 hrest
    refine ⟨so2, sm2, ?_, ?_, ?_⟩
    · rw [ownerRun_cons_some nc tid so so1 call rest (binStep nc sb call).1 ho1, ho2,
        binRun_cons]
    · rw [mutexRun_cons, binRun_cons, hm1]
      simp only [hm2]
    · rw [binRun_cons]
      exact hsim2

/-- C9: from fresh managers, every single-thread sequence of
contract-respecting `try_lock` / `unlock` / `release_all` / `all_released`
calls produces identical return values in the three strategies, the
owner-id strategy never spins, and all three leave the calling thread
holding the same set of cells (equal ledger bitmaps and locked-cell
lists). -/
theorem strategies_interchangeable (nc tid : Nat) (calls : List LockCall)
    (hvalid : validCalls nc (initGridLockState nc) calls = true) :
    ∃ so sm,
      ownerRun nc tid (initOwnerGridLockState nc) calls =
        some ((binRun nc (initGridLockState nc) calls).1, so) ∧
      mutexRun nc (initMutexGridLockState nc) calls =
        ((binRun nc (initGridLockState nc) calls).1, sm) ∧
      so.tlsGrid = (binRun nc (initGridLockState nc) calls).2.tlsGrid ∧
      sm.tlsGrid = (binRun nc (initGridLockState nc) calls).2.tlsGrid ∧
      so.tlsLockedCells = (binRun nc (initGridLockState nc) calls).2.tlsLockedCells ∧
      sm.tlsLockedCells = (binRun nc (initGridLockState nc) calls).2.tlsLockedCells := by
  obtain ⟨so, sm, ho, hm, hsim⟩ :=
    strategySim_run tid nc calls _ _ _ (strategySim_init tid nc) hvalid
  exact ⟨so, sm, ho, hm, hsim.owner_tls, hsim.mutex_tls,
    hsim.owner_list, hsim.mutex_list⟩

/-- C9 witness: a seven-call sequence (reentrant lock, check, unlock,
fresh lock, release-all, check) on two cells with thread id 1. -/
theorem strategies_interchangeable_witness :
    ∃ so sm,
      ownerRun 2 1 (initOwnerGridLockState 2)
          [LockCall.tryLockCall 0, LockCall.tryLockCall 0, LockCall.allReleasedCall,
            LockCall.unlockCall 0, LockCall.tryLockCall 1, LockCall.releaseAllCall,
            LockCall.allReleasedCall] =
        some ((binRun 2 (initGridLockState 2)
          [LockCall.tryLockCall 0, LockCall.tryLockCall 0, LockCall.allReleasedCall,
            LockCall.unlockCall 0, LockCall.tryLockCall 1, LockCall.releaseAllCall,
            LockCall.allReleasedCall]).1, so) ∧
      mutexRun 2 (initMutexGridLockState 2)
          [LockCall.tryLockCall 0, LockCall.tryLockCall 0, LockCall.allReleasedCall,
            LockCall.unlockCall 0, LockCall.tryLockCall 1, LockCall.releaseAllCall,
            LockCall.allReleasedCall] =
        ((binRun 2 (initGridLockState 2)
          [LockCall.tryLockCall 0, LockCall.tryLockCall 0, LockCall.allReleasedCall,
            LockCall.unlockCall 0, LockCall.tryLockCall 1, LockCall.releaseAllCall,
            LockCall.allReleasedCall]).1, sm) ∧
      so.tlsGrid = (binRun 2 (initGridLockState 2)
          [LockCall.tryLockCall 0, LockCall.tryLockCall 0, LockCall.allReleasedCall,
            LockCall.unlockCall 0, LockCall.tryLockCall 1, LockCall.releaseAllCall,
            LockCall.allReleasedCall]).2.tlsGrid ∧
      sm.tlsGrid = (binRun 2 (initGridLockState 2)
          [LockCall.tryLockCall 0, LockCall.tryLockCall 0, LockCall.allReleasedCall,
            LockCall.unlockCall 0, LockCall.tryLockCall 1, LockCall.releaseAllCall,
            LockCall.allReleasedCall]).2.tlsGrid ∧
      so.tlsLockedCells = (binRun 2 (initGridLockState 2)
          [LockCall.tryLockCall 0, LockCall.tryLockCall 0, LockCall.allReleasedCall,
            LockCall.unlockCall 0, LockCall.tryLockCall 1, LockCall.releaseAllCall,
            LockCall.allReleasedCall]).2.tlsLockedCells ∧
      sm.tlsLockedCells = (binRun 2 (initGridLockState 2)
          [LockCall.tryLockCall 0, LockCall.tryLockCall 0, LockCall.allReleasedCall,
            LockCall.unlockCall 0, LockCall.tryLockCall 1, LockCall.releaseAllCall,
            LockCall.allReleasedCall]).2.tlsLockedCells :=
  strategies_interchangeable 2 1
    [LockCall.tryLockCall 0, LockCall.tryLockCall 0, LockCall.allReleasedCall,
      LockCall.unlockCall 0, LockCall.tryLockCall 1, LockCall.releaseAllCall,
      LockCall.allReleasedCall] (by decide)
